import Mathlib

/-!
# A shallow embedding of the `protofsm` state-machine executor

This file embeds the executor of `protofsm` (the `StateMachine` type, its
daemon-event dispatcher `executeDaemonEvent`, the transition engine
`applyEvents`, and the driver loop `driveMachine`) together with the
chain-hash handling of the `lnwire.ChannelAnnouncement2` codec, and proves
properties of the embedded definitions.

Modelling conventions:
* Values that are opaque to the executor (peer public keys, wire messages,
  transactions, outpoints, txids, scripts) are modelled as `Nat` / `List Nat`.
* Go interface values (`State`, `Environment`, `DaemonAdapters`) become
  explicit function parameters gathered in a `Machine` structure.
* `fn.Option` becomes `Option`; `fn.MapOptionZ`, `WhenSome` and `UnwrapOr`
  become the corresponding `Option` eliminations.
* Adapter calls, subscriber notifications, internal-event enqueues and
  daemon-event dispatches are recorded in ghost trace lists so that ordering
  properties can be stated.
* The Go loops in `applyEvents` may diverge if transitions keep emitting
  internal events; the embedding takes a fuel parameter and returns `none`
  when the fuel runs out, which the driver model treats as the machine
  hanging.
-/

/-- The four daemon-event variants of `protofsm`, plus a constructor standing
for any other implementation of the Go `DaemonEvent` interface (the type
switch in `executeDaemonEvent` is over an open interface, so values outside
the four known pointer types are possible and hit the fallthrough). -/
inductive DaemonEvent (Event : Type) where
  | sendMsgEvent (targetPeer : Nat) (msgs : List Nat)
      (sendWhen : Option (Nat → Bool)) (postSendEvent : Option Event)
  | broadcastTxn (tx : Nat) (label : String)
  | registerSpend (outPoint : Nat) (pkScript : List Nat) (heightHint : Nat)
      (postSpendEvent : Option Event)
  | registerConf (txid : Nat) (pkScript : List Nat) (numConfs : Option Nat)
      (heightHint : Nat) (postConfEvent : Option Event)
  | unknownDaemonEvent (tyName : String)

/-- `DaemonEventSet` is a slice of daemon events. -/
abbrev DaemonEventSet (Event : Type) := List (DaemonEvent Event)

/-- `EmittedEvent`: an optional internal event routed back to the state, and
an optional ordered set of external (daemon) events. -/
structure EmittedEvent (Event : Type) where
  internalEvent : Option Event
  externalEvents : Option (DaemonEventSet Event)

/-- `StateTransition`: the next state, and an optional set of events to
emit. -/
structure StateTransition (Event St : Type) where
  nextState : St
  newEvents : Option (EmittedEvent Event)

/-- The `DaemonAdapters` interface.  Each adapter call either succeeds or
fails with an error message; the asynchronous halves of the notification
registrations (the spend / confirmation channels) are not needed for the
synchronous dispatcher results modelled here. -/
structure DaemonAdapters where
  sendMessages : Nat → List Nat → Except String Unit
  broadcastTransaction : Nat → String → Except String Unit
  registerConfirmationsNtfn : Nat → List Nat → Nat → Nat → Except String Unit
  registerSpendNtfn : Nat → List Nat → Nat → Except String Unit

/-- A record of one call made to the daemon adapters. -/
inductive AdapterCall where
  | sendMessages (peer : Nat) (msgs : List Nat)
  | broadcastTransaction (tx : Nat) (label : String)
  | registerConfirmationsNtfn (txid : Nat) (pkScript : List Nat)
      (numConfs : Nat) (heightHint : Nat)
  | registerSpendNtfn (outPoint : Nat) (pkScript : List Nat) (heightHint : Nat)
deriving DecidableEq

/-- The errors `executeDaemonEvent` can return, following its `fmt.Errorf`
wrappings. -/
inductive DispatchErr where
  | unableToSendMsgs (e : String)
  | unableToBroadcastTxn (e : String)
  | unableToRegisterSpend (e : String)
  | unableToRegisterConf (e : String)
  | unknownDaemonEvent (tyName : String)
deriving DecidableEq

/-- The synchronous outcome of `executeDaemonEvent`: its return value plus
the ghost list of adapter calls it performed synchronously. -/
structure DispatchOutcome where
  result : Except DispatchErr Unit
  calls : List AdapterCall

/-- The outcome of the `sendAndCleanUp` closure inside the `SendMsgEvent`
case: its return value, the adapter calls it made, and the events it injected
back into the state machine (the spawned `SendEvent` of the post-send
event, which happens only on the success path). -/
structure SendOutcome (Event : Type) where
  result : Except DispatchErr Unit
  calls : List AdapterCall
  injected : List Event

/-- The `sendAndCleanUp` closure: call `SendMessages`; on failure wrap and
return the error (injecting nothing); on success spawn the injection of the
post-send event, if present, and return nil. -/
def sendAndCleanUp {Event : Type} (a : DaemonAdapters) (targetPeer : Nat)
    (msgs : List Nat) (postSendEvent : Option Event) : SendOutcome Event :=
  match a.sendMessages targetPeer msgs with
  | .error e =>
      { result := .error (.unableToSendMsgs e),
        calls := [.sendMessages targetPeer msgs],
        injected := [] }
  | .ok _ =>
      { result := .ok (),
        calls := [.sendMessages targetPeer msgs],
        injected := postSendEvent.toList }

/-- The body of the predicate-polling goroutine at the first poll tick on
which the `SendWhen` predicate returns true: it runs `sendAndCleanUp()` and
discards its return value (the Go source calls `sendAndCleanUp()` as a bare
statement inside the goroutine), so only the adapter calls and the injected
events are observable. -/
def sendWhenWorkerOnFire {Event : Type} (a : DaemonAdapters) (targetPeer : Nat)
    (msgs : List Nat) (postSendEvent : Option Event) :
    List AdapterCall × List Event :=
  let so := sendAndCleanUp a targetPeer msgs postSendEvent
  (so.calls, so.injected)

/-- `executeDaemonEvent`, synchronous part.  The `RegisterConf` case mirrors
the source faithfully: its success path has no trailing return inside the
switch case, so control falls out of the type switch and reaches the final
`unknown daemon event` return. -/
def executeDaemonEvent {Event : Type} (a : DaemonAdapters)
    (event : DaemonEvent Event) : DispatchOutcome :=
  match event with
  | .sendMsgEvent targetPeer msgs sendWhen postSendEvent =>
      match sendWhen with
      | none =>
          let so := sendAndCleanUp a targetPeer msgs postSendEvent
          { result := so.result, calls := so.calls }
      | some _ =>
          -- a polling goroutine is spawned; the dispatcher returns nil
          { result := .ok (), calls := [] }
  | .broadcastTxn tx label =>
      match a.broadcastTransaction tx label with
      | .error e =>
          { result := .error (.unableToBroadcastTxn e),
            calls := [.broadcastTransaction tx label] }
      | .ok _ =>
          { result := .ok (), calls := [.broadcastTransaction tx label] }
  | .registerSpend outPoint pkScript heightHint _ =>
      match a.registerSpendNtfn outPoint pkScript heightHint with
      | .error e =>
          { result := .error (.unableToRegisterSpend e),
            calls := [.registerSpendNtfn outPoint pkScript heightHint] }
      | .ok _ =>
          { result := .ok (),
            calls := [.registerSpendNtfn outPoint pkScript heightHint] }
  | .registerConf txid pkScript numConfs heightHint _ =>
      let nc := numConfs.getD 1
      match a.registerConfirmationsNtfn txid pkScript nc heightHint with
      | .error e =>
          { result := .error (.unableToRegisterConf e),
            calls := [.registerConfirmationsNtfn txid pkScript nc heightHint] }
      | .ok _ =>
          -- no `return nil` at the end of this case in the source: control
          -- leaves the switch and hits the unknown-daemon-event return
          { result := .error (.unknownDaemonEvent "RegisterConf"),
            calls := [.registerConfirmationsNtfn txid pkScript nc heightHint] }
  | .unknownDaemonEvent tyName =>
      { result := .error (.unknownDaemonEvent tyName), calls := [] }

/-- A ghost trace action recorded by the transition engine. -/
inductive EngineAction (Event St : Type) where
  | processed (e : Event)
  | dispatched (d : DaemonEvent Event)
  | enqueuedInternal (e : Event)
  | notified (st : St)

/-- The state threaded through the transition-engine loop of `applyEvents`:
the local `currentState`, the internal event queue (`fn.Queue`, modelled per
the spec as a FIFO list: enqueue at the tail, dequeue at the head), and the
ghost action trace. -/
structure EngineState (Event St : Type) where
  currentState : St
  eventQueue : List Event
  trace : List (EngineAction Event St)

/-- The error returned by the engine: either the transition function's error
or the first daemon-dispatch error. -/
inductive EngineErr where
  | transitionErr (e : String)
  | daemonErr (e : DispatchErr)
deriving DecidableEq

/-- Dispatch a slice of daemon events in declared order, stopping at the
first error (the inner loop over `dEvents` in `applyEvents`).  Returns the
list of events on which the dispatcher was invoked, in order, and the first
error if any. -/
def dispatchList {Event : Type} (execD : DaemonEvent Event → Except DispatchErr Unit) :
    DaemonEventSet Event → DaemonEventSet Event × Option DispatchErr
  | [] => ([], none)
  | d :: ds =>
      match execD d with
      | .error e => ([d], some e)
      | .ok _ =>
          let r := dispatchList execD ds
          (d :: r.1, r.2)

/-- The body of one iteration of the `applyEvents` loop: process the event
with the current state's transition function; on success dispatch the emitted
external events in order, then enqueue the emitted internal event at the
tail, then replace the current state with `nextState` and notify the
subscribers.  Any error aborts the step, leaving the current state and the
queue untouched. -/
def processOne {Event St EnvT : Type}
    (pe : St → Event → EnvT → Except String (StateTransition Event St))
    (execD : DaemonEvent Event → Except DispatchErr Unit) (env : EnvT)
    (es : EngineState Event St) (event : Event) :
    EngineState Event St × Option EngineErr :=
  let es0 : EngineState Event St :=
    { es with trace := es.trace ++ [.processed event] }
  match pe es.currentState event env with
  | .error err => (es0, some (.transitionErr err))
  | .ok transition =>
      match transition.newEvents with
      | none =>
          ({ es0 with
              currentState := transition.nextState,
              trace := es0.trace ++ [.notified transition.nextState] }, none)
      | some events =>
          let dr := dispatchList execD (events.externalEvents.getD [])
          let es1 : EngineState Event St :=
            { es0 with trace := es0.trace ++ dr.1.map .dispatched }
          match dr.2 with
          | some derr => (es1, some (.daemonErr derr))
          | none =>
              let es2 : EngineState Event St :=
                match events.internalEvent with
                | some inEvent =>
                    { es1 with
                        eventQueue := es1.eventQueue ++ [inEvent],
                        trace := es1.trace ++ [.enqueuedInternal inEvent] }
                | none => es1
              ({ es2 with
                  currentState := transition.nextState,
                  trace := es2.trace ++ [.notified transition.nextState] }, none)

/-- The dequeue loop of `applyEvents`: dequeue the head of the queue, run
one step, abort on the first error returning the partially updated state,
otherwise continue until the queue drains.  `none` means the fuel ran out
(the Go loop would still be running). -/
def applyEventsLoop {Event St EnvT : Type}
    (pe : St → Event → EnvT → Except String (StateTransition Event St))
    (execD : DaemonEvent Event → Except DispatchErr Unit) (env : EnvT) :
    Nat → EngineState Event St → Option (EngineState Event St × Option EngineErr)
  | _, ⟨st, [], tr⟩ => some (⟨st, [], tr⟩, none)
  | 0, _ => none
  | fuel + 1, ⟨st, e :: rest, tr⟩ =>
      let r := processOne pe execD env ⟨st, rest, tr⟩ e
      match r.2 with
      | some err => some (r.1, some err)
      | none => applyEventsLoop pe execD env fuel r.1

/-- `applyEvents`: seed the queue with the new event and run the engine loop
from the given starting state. -/
def applyEvents {Event St EnvT : Type}
    (pe : St → Event → EnvT → Except String (StateTransition Event St))
    (execD : DaemonEvent Event → Except DispatchErr Unit) (env : EnvT)
    (fuel : Nat) (startState : St) (newEvent : Event) :
    Option (EngineState Event St × Option EngineErr) :=
  applyEventsLoop pe execD env fuel ⟨startState, [newEvent], []⟩

/-- A `StateMachine` instance: the collaborator interfaces (`State` via its
`ProcessEvent` / `IsTerminal` methods, the adapters) plus the initial state
stored into the `currentState` field at construction. -/
structure Machine (Event St EnvT : Type) where
  processEvent : St → Event → EnvT → Except String (StateTransition Event St)
  isTerminal : St → Bool
  adapters : DaemonAdapters
  env : EnvT
  initialState : St

/-- The dispatcher the engine uses for a machine: the synchronous result of
`executeDaemonEvent` with the machine's adapters. -/
def Machine.execD {Event St EnvT : Type} (m : Machine Event St EnvT) :
    DaemonEvent Event → Except DispatchErr Unit :=
  fun d => (executeDaemonEvent m.adapters d).result

/-- The observable state of the driver loop: `localState` is the
`currentState` local variable of `driveMachine`; `sField` is the
`s.currentState` struct field (assigned at construction and never written
afterwards, which is what `applyEvents` reads); `cleanUpCalls` counts the
invocations of `env.CleanUp`; `notifications` is the cumulative list of
states published to the subscription hub; `runStarts` records, per external
event, the state the engine run was started from; `hung` is set when an
engine run never terminates. -/
structure DriveState (Event St : Type) where
  localState : St
  sField : St
  cleanUpCalls : Nat
  notifications : List St
  runStarts : List St
  hung : Bool

/-- The states published to the hub during an engine run, in order. -/
def notifiedStates {Event St : Type} (tr : List (EngineAction Event St)) : List St :=
  tr.filterMap fun a =>
    match a with
    | .notified st => some st
    | _ => none

/-- One iteration of the driver loop on an external event: run the engine
from `s.currentState` (the struct field); on an engine error, log and
continue; on success, assign the local `currentState` and, if the new state
is terminal, invoke `env.CleanUp` (and keep looping). -/
def driveStep {Event St EnvT : Type} (m : Machine Event St EnvT) (fuel : Nat)
    (ds : DriveState Event St) (e : Event) : DriveState Event St :=
  if ds.hung then ds
  else
    let ds0 : DriveState Event St :=
      { ds with runStarts := ds.runStarts ++ [ds.sField] }
    match applyEvents m.processEvent m.execD m.env fuel ds0.sField e with
    | none => { ds0 with hung := true }
    | some (es, errOpt) =>
        let ds1 : DriveState Event St :=
          { ds0 with notifications := ds0.notifications ++ notifiedStates es.trace }
        match errOpt with
        | some _ => ds1
        | none =>
            let ds2 : DriveState Event St :=
              { ds1 with localState := es.currentState }
            if m.isTerminal es.currentState then
              { ds2 with cleanUpCalls := ds2.cleanUpCalls + 1 }
            else ds2

/-- `driveMachine` over a finite list of externally injected events: the
local `currentState` starts as `s.currentState`, the initial state is
published to the hub before any input is awaited, then the events are served
in order. -/
def driveMachine {Event St EnvT : Type} (m : Machine Event St EnvT) (fuel : Nat)
    (events : List Event) : DriveState Event St :=
  events.foldl (driveStep m fuel)
    { localState := m.initialState,
      sField := m.initialState,
      cleanUpCalls := 0,
      notifications := [m.initialState],
      runStarts := [],
      hung := false }

/-- The reply to a `CurrentState` query served by the driver loop: the
driver's local `currentState`. -/
def DriveState.queryReply {Event St : Type} (ds : DriveState Event St) : St :=
  ds.localState

/-- Errors surfaced by the `CurrentState` query. -/
inductive QueryErr where
  | shuttingDown
  | timeout
deriving DecidableEq

/-- The hard-coded reply deadline of `CurrentState` (`time.Second`), in
milliseconds. -/
def currentStateQueryTimeoutMs : Nat := 1000

/-- Modelled from the spec: `fn.RecvOrTimeout` (not under `src/`) waits for a
reply with a deadline and fails with *timeout* if the reply did not arrive in
time.  `reply` is the arrival time of the reply, in milliseconds, together
with the replied state, or `none` if no reply is ever sent. -/
def recvOrTimeout {St : Type} (reply : Option (Nat × St)) (timeoutMs : Nat) :
    Except QueryErr St :=
  match reply with
  | some (t, st) => if t ≤ timeoutMs then .ok st else .error .timeout
  | none => .error .timeout

/-- `CurrentState`: send the query rendezvous to the driver
(`fn.SendOrQuit`, modelled from the spec: it delivers the query unless the
shutdown signal fires first, in which case it reports failure), failing with
*shutting-down* when the driver is gone; otherwise wait for the reply with a
1-second deadline. -/
def currentStateQuery {St : Type} (delivered : Bool)
    (reply : Option (Nat × St)) : Except QueryErr St :=
  if !delivered then .error .shuttingDown
  else recvOrTimeout reply currentStateQueryTimeoutMs

/-- A 32-byte hash, modelled as a natural number. -/
abbrev Hash := Nat

/-- The bitcoin mainnet genesis block hash
(`chaincfg.MainNetParams.GenesisHash`). -/
def mainNetGenesisHash : Hash :=
  0x000000000019d6689c085ae165831e934ff763ae46a2a6c172b3f1b60a8ce26f

/-- The fields of `lnwire.ChannelAnnouncement2` relevant to its TLV stream
(the signature is not part of the TLV records).  Record values are modelled
as naturals. -/
structure ChannelAnnouncement2 where
  chainHash : Hash
  features : Nat
  shortChannelID : Nat
  capacity : Nat
  nodeID1 : Nat
  nodeID2 : Nat
  bitcoinKey1 : Option Nat
  bitcoinKey2 : Option Nat
  merkleRootHash : Option Hash
deriving DecidableEq

/-- A decoded TLV stream, as the type map produced by
`ExtractRecords`: an association list from TLV type to record value. -/
abbrev TlvTypeMap := List (Nat × Nat)

/-- `DecodeTLVRecords`, on the extracted type map: mandatory records default
to their zero values when absent; optional records stay absent; the
chain-hash record (type 0) defaults to the bitcoin mainnet genesis block
hash when the stream contains no type-0 record, and is overwritten with the
decoded value when it does. -/
def DecodeTLVRecords (typeMap : TlvTypeMap) : ChannelAnnouncement2 :=
  { chainHash :=
      match typeMap.lookup 0 with
      | some v => v
      | none => mainNetGenesisHash,
    features := (typeMap.lookup 2).getD 0,
    shortChannelID := (typeMap.lookup 4).getD 0,
    capacity := (typeMap.lookup 6).getD 0,
    nodeID1 := (typeMap.lookup 8).getD 0,
    nodeID2 := (typeMap.lookup 10).getD 0,
    bitcoinKey1 := typeMap.lookup 12,
    bitcoinKey2 := typeMap.lookup 14,
    merkleRootHash := typeMap.lookup 16 }

/-- `DataToSign`, as the list of TLV records it encodes, in the order the
record producers are appended: the chain-hash record (type 0) is included
only when the chain hash is not equal to the bitcoin mainnet genesis block
hash; then the mandatory records; then the optional records when present. -/
def DataToSign (c : ChannelAnnouncement2) : TlvTypeMap :=
  (if c.chainHash = mainNetGenesisHash then [] else [(0, c.chainHash)]) ++
    [(2, c.features), (4, c.shortChannelID), (6, c.capacity),
     (8, c.nodeID1), (10, c.nodeID2)] ++
    (match c.bitcoinKey1 with
     | some k => [(12, k)]
     | none => []) ++
    (match c.bitcoinKey2 with
     | some k => [(14, k)]
     | none => []) ++
    (match c.merkleRootHash with
     | some h => [(16, h)]
     | none => [])

/-! ## Concrete fixtures used by witnesses and counterexamples -/

/-- Adapters on which every call succeeds. -/
def adapterAllOk : DaemonAdapters :=
  { sendMessages := fun _ _ => .ok (),
    broadcastTransaction := fun _ _ => .ok (),
    registerConfirmationsNtfn := fun _ _ _ _ => .ok (),
    registerSpendNtfn := fun _ _ _ => .ok () }

/-- Adapters on which `SendMessages` fails and every other call succeeds. -/
def adapterSendFails : DaemonAdapters :=
  { adapterAllOk with sendMessages := fun _ _ => .error "peer gone" }

/-- A machine whose transition function increments the state on every event
and never reaches a terminal state. -/
def succMachine : Machine Nat Nat Unit :=
  { processEvent := fun s _ _ => .ok ⟨s + 1, none⟩,
    isTerminal := fun _ => false,
    adapters := adapterAllOk,
    env := (),
    initialState := 0 }

/-- A machine that moves to the terminal state `1` on every event (and stays
there, re-entering it on each further event). -/
def constTerminalMachine : Machine Nat Nat Unit :=
  { processEvent := fun _ _ _ => .ok ⟨1, none⟩,
    isTerminal := fun s => s == 1,
    adapters := adapterAllOk,
    env := (),
    initialState := 0 }

/-! ## C2: the dispatcher's unknown-daemon-event error -/

/-- C2: the claim states that `executeDaemonEvent` returns the
unknown-daemon-event error only for daemon events outside the four known
variants and returns no error for a `RegisterConf` whose registration
succeeds.  The code refutes it: the `RegisterConf` case of the type switch
has no trailing `return nil`, so on a successful registration control falls
out of the switch to the final `unknown daemon event` return.  At the
concrete failing input — a `RegisterConf` event under adapters whose
`RegisterConfirmationsNtfn` succeeds — the dispatcher performs the
registration and then still returns the unknown-daemon-event error. -/
theorem registerConf_success_returns_unknown_daemon_event :
    (@executeDaemonEvent Nat adapterAllOk
        (.registerConf 5 [1, 2] (some 1) 7 none)).result
      = .error (.unknownDaemonEvent "RegisterConf") ∧
    (@executeDaemonEvent Nat adapterAllOk
        (.registerConf 5 [1, 2] (some 1) 7 none)).calls
      = [.registerConfirmationsNtfn 5 [1, 2] 1 7] :=
  ⟨rfl, rfl⟩

/-! ## C8: the confirmation count passed to RegisterConfirmationsNtfn -/

/-- C8: for every `RegisterConf` daemon event the dispatcher calls
`RegisterConfirmationsNtfn` with the event's `NumConfs` value when present,
and with confirmation count 1 when it is absent (`NumConfs.UnwrapOr(1)`). -/
theorem registerConf_numConfs_present_or_default :
    ∀ (Event : Type) (a : DaemonAdapters) (txid : Nat) (pkScript : List Nat)
      (heightHint : Nat) (post : Option Event) (n : Nat),
      (executeDaemonEvent a
          (.registerConf txid pkScript (some n) heightHint post)).calls
        = [.registerConfirmationsNtfn txid pkScript n heightHint] ∧
      (executeDaemonEvent a
          (.registerConf txid pkScript none heightHint post)).calls
        = [.registerConfirmationsNtfn txid pkScript 1 heightHint] := by
  intro Event a txid pkScript heightHint post n
  constructor
  · unfold executeDaemonEvent
    cases h : a.registerConfirmationsNtfn txid pkScript n heightHint <;>
      simp [h]
  · unfold executeDaemonEvent
    cases h : a.registerConfirmationsNtfn txid pkScript 1 heightHint <;>
      simp [h]

/-! ## C9: a failing gated send is silently discarded -/

/-- C9: for a `SendMsgEvent` with a `SendWhen` predicate, the dispatcher
returns nil immediately (so no error can reach the transition-error path),
and when the predicate first fires and `SendMessages` fails, the
`sendAndCleanUp` error is produced but the polling goroutine discards it —
its only observable outputs are the adapter calls and the injected events —
and the post-send event is never injected. -/
theorem gated_send_failure_silently_discarded :
    ∀ (Event : Type) (a : DaemonAdapters) (peer : Nat) (msgs : List Nat)
      (pred : Nat → Bool) (post : Option Event) (e : String),
      a.sendMessages peer msgs = .error e →
      (executeDaemonEvent a (.sendMsgEvent peer msgs (some pred) post)).result
          = .ok ()
        ∧ dispatchList (fun d => (executeDaemonEvent a d).result)
            [.sendMsgEvent peer msgs (some pred) post]
            = ([.sendMsgEvent peer msgs (some pred) post], none)
        ∧ (sendAndCleanUp a peer msgs post).result
            = .error (.unableToSendMsgs e)
        ∧ (sendWhenWorkerOnFire a peer msgs post).2 = [] := by
  intro Event a peer msgs pred post e h
  refine ⟨rfl, rfl, ?_, ?_⟩
  · unfold sendAndCleanUp
    rw [h]
  · unfold sendWhenWorkerOnFire sendAndCleanUp
    rw [h]

/-- Witness for C9 at a concrete failing adapter. -/
theorem gated_send_failure_silently_discarded_witness :
    (@executeDaemonEvent Nat adapterSendFails
        (.sendMsgEvent 3 [8] (some fun _ => true) (some 42))).result = .ok ()
      ∧ (@sendAndCleanUp Nat adapterSendFails 3 [8] (some 42)).result
          = .error (.unableToSendMsgs "peer gone")
      ∧ (@sendWhenWorkerOnFire Nat adapterSendFails 3 [8]
          (some 42)).2 = [] := by
  have h := gated_send_failure_silently_discarded Nat adapterSendFails 3 [8]
    (fun _ => true) (some 42) "peer gone" rfl
  exact ⟨h.1, h.2.2.1, h.2.2.2⟩

/-! ## C7: the CurrentState query error cases -/

/-- C7: `CurrentState` fails with the shutting-down error when the query
cannot be delivered because shutdown has been signalled, fails with the
timeout error when no reply arrives within 1 second, and otherwise returns
the state snapshot with no error. -/
theorem currentState_query_cases :
    ∀ (St : Type) (reply : Option (Nat × St)) (st : St) (t : Nat),
      currentStateQuery false reply = .error .shuttingDown
        ∧ @currentStateQuery St true none = .error .timeout
        ∧ (currentStateQueryTimeoutMs < t →
            currentStateQuery true (some (t, st)) = .error .timeout)
        ∧ (t ≤ currentStateQueryTimeoutMs →
            currentStateQuery true (some (t, st)) = .ok st) := by
  intro St reply st t
  refine ⟨rfl, rfl, ?_, ?_⟩
  · intro h
    simp only [currentStateQuery, recvOrTimeout, Bool.not_true, Bool.false_eq_true,
      if_false, if_neg (Nat.not_le.mpr h)]
  · intro h
    simp only [currentStateQuery, recvOrTimeout, Bool.not_true, Bool.false_eq_true,
      if_false, if_pos h]

/-- Witness for C7: a reply arriving after 1500 ms times out; a reply
arriving after 500 ms is returned. -/
theorem currentState_query_cases_witness :
    @currentStateQuery Nat true (some (1500, 9)) = .error .timeout
      ∧ @currentStateQuery Nat true (some (500, 9)) = .ok 9 :=
  ⟨(currentState_query_cases Nat none 9 1500).2.2.1 (by decide),
   (currentState_query_cases Nat none 9 500).2.2.2 (by decide)⟩

/-! ## C1: the engine run for the next event starts from a stale state -/

/-- C1: the claim states that the engine run for event N+1 starts from the
state that resulted from event N, which is also the state returned to
`CurrentState` queries.  The code refutes it: `applyEvents` reads the
`s.currentState` struct field, which is assigned only at construction and
never written again — `driveMachine` updates only its local `currentState`
variable, which is what query replies return.  On the concrete machine whose
transition function increments a counter: after the first event the query
reply is `1`, yet both engine runs start from the initial state `0`
(`runStarts = [0, 0]` instead of the claimed `[0, 1]`), and after two events
the query reply is `1` instead of the claimed `2`. -/
theorem driveMachine_second_run_starts_from_initial_state :
    (driveMachine succMachine 10 [100]).queryReply = 1
      ∧ (driveMachine succMachine 10 [100, 100]).runStarts = [0, 0]
      ∧ (driveMachine succMachine 10 [100, 100]).queryReply = 1 :=
  ⟨rfl, rfl, rfl⟩

/-! ## C3: cleanUp on terminal re-entry -/

/-- C3: the claim states that `env.cleanUp` is invoked at most once per
executor lifetime.  The code refutes it: after a terminal state is reached
the driver loop keeps serving events (it does not exit nor record that
cleanup already ran), so each later event chain that ends in a terminal
state invokes `env.CleanUp` again.  On the concrete machine that enters
terminal state `1` on every event, two events produce two `CleanUp`
invocations. -/
theorem cleanUp_called_twice_on_terminal_reentry :
    (driveMachine constTerminalMachine 10 [100, 100]).cleanUpCalls = 2 :=
  rfl

/-! ## C6: the initial state is published first -/

/-- One driver-loop iteration only appends to the published notifications. -/
theorem driveStep_notifications_extend {Event St EnvT : Type}
    (m : Machine Event St EnvT) (fuel : Nat) (ds : DriveState Event St)
    (e : Event) :
    ∃ tail, (driveStep m fuel ds e).notifications = ds.notifications ++ tail := by
  unfold driveStep
  by_cases hh : ds.hung
  · exact ⟨[], by simp [hh]⟩
  · simp only [hh, if_false]
    cases h : applyEvents m.processEvent m.execD m.env fuel ds.sField e with
    | none => exact ⟨[], by simp⟩
    | some r =>
        obtain ⟨es, errOpt⟩ := r
        cases errOpt with
        | some err => exact ⟨notifiedStates es.trace, by simp⟩
        | none =>
            by_cases ht : m.isTerminal es.currentState
            · exact ⟨notifiedStates es.trace, by simp [ht]⟩
            · exact ⟨notifiedStates es.trace, by simp [ht]⟩

/-- Folding the driver loop over any event list only appends to the
published notifications. -/
theorem driveFold_notifications_extend {Event St EnvT : Type}
    (m : Machine Event St EnvT) (fuel : Nat) :
    ∀ (events : List Event) (ds : DriveState Event St),
      ∃ tail,
        (events.foldl (driveStep m fuel) ds).notifications
          = ds.notifications ++ tail := by
  intro events
  induction events with
  | nil => exact fun ds => ⟨[], by simp⟩
  | cons e es ih =>
      intro ds
      obtain ⟨t1, h1⟩ := driveStep_notifications_extend m fuel ds e
      obtain ⟨t2, h2⟩ := ih (driveStep m fuel ds e)
      exact ⟨t1 ++ t2, by simp [List.foldl_cons, h2, h1]⟩

/-- C6: when the driver starts it publishes the initial state to the
subscription hub before waiting on any input, so for every machine and every
sequence of externally injected events the first published notification is
the initial state and every post-transition notification comes after it. -/
theorem driveMachine_initial_notification_first :
    ∀ (Event St EnvT : Type) (m : Machine Event St EnvT) (fuel : Nat)
      (events : List Event),
      ∃ tail,
        (driveMachine m fuel events).notifications = m.initialState :: tail := by
  intro Event St EnvT m fuel events
  obtain ⟨tail, h⟩ := driveFold_notifications_extend m fuel events
    { localState := m.initialState,
      sField := m.initialState,
      cleanUpCalls := 0,
      notifications := [m.initialState],
      runStarts := [],
      hung := false }
  exact ⟨tail, by simpa [driveMachine] using h⟩

/-! ## C10: the ChannelAnnouncement2 chain-hash default -/

/-- C10: `ChannelAnnouncement2` treats the bitcoin mainnet genesis hash as
the default chain hash: `DecodeTLVRecords` falls back to the mainnet genesis
hash exactly when the stream has no type-0 record (and takes the decoded
value when it has one), `DataToSign` includes a chain-hash record exactly
when the chain hash differs from the mainnet genesis hash, and therefore the
chain-hash field survives an encode-then-decode round trip. -/
theorem chanAnn2_chainHash_default_and_roundtrip :
    (∀ typeMap : TlvTypeMap,
        (DecodeTLVRecords typeMap).chainHash
          = (typeMap.lookup 0).getD mainNetGenesisHash)
      ∧ (∀ c : ChannelAnnouncement2,
          (DataToSign c).lookup 0
            = if c.chainHash = mainNetGenesisHash then none
              else some c.chainHash)
      ∧ (∀ c : ChannelAnnouncement2,
          (DecodeTLVRecords (DataToSign c)).chainHash = c.chainHash) := by
  have h1 : ∀ typeMap : TlvTypeMap,
      (DecodeTLVRecords typeMap).chainHash
        = (typeMap.lookup 0).getD mainNetGenesisHash := by
    intro typeMap
    unfold DecodeTLVRecords
    cases typeMap.lookup 0 <;> rfl
  have h2 : ∀ c : ChannelAnnouncement2,
      (DataToSign c).lookup 0
        = if c.chainHash = mainNetGenesisHash then none
          else some c.chainHash := by
    intro c
    obtain ⟨ch, f, scid, cap, n1, n2, bk1, bk2, mrh⟩ := c
    by_cases h : ch = mainNetGenesisHash <;>
      · rcases bk1 with _ | k1 <;> rcases bk2 with _ | k2 <;>
          rcases mrh with _ | mh <;>
          simp [DataToSign, h, List.lookup]
  refine ⟨h1, h2, ?_⟩
  intro c
  rw [h1, h2]
  by_cases h : c.chainHash = mainNetGenesisHash <;> simp [h]

/-! ## C4 and C5: the transition-engine stepping discipline -/

/-- When the inner dispatch loop reports no error, every daemon event of the
set was dispatched, in declared order. -/
theorem dispatchList_no_error_dispatches_all {Event : Type}
    (execD : DaemonEvent Event → Except DispatchErr Unit) :
    ∀ ds : DaemonEventSet Event,
      (dispatchList execD ds).2 = none → (dispatchList execD ds).1 = ds := by
  intro ds
  induction ds with
  | nil => intro _; rfl
  | cons d rest ih =>
      intro h
      unfold dispatchList at h ⊢
      cases hd : execD d with
      | error e => rw [hd] at h; simp at h
      | ok _ =>
          rw [hd] at h
          simp only [] at h ⊢
          simp only [List.cons.injEq, true_and]
          exact ih (by simpa using h)

/-- C4: if the transition function returns an error, or the daemon-event
dispatcher returns an error, the engine aborts at once and returns the
partially updated state with the error; for the failing step the current
state is not replaced, no internal event is enqueued and no notification is
published (the failing step only adds its dispatch attempts to the trace). -/
theorem applyEvents_abort_on_error :
    ∀ (Event St EnvT : Type)
      (pe : St → Event → EnvT → Except String (StateTransition Event St))
      (execD : DaemonEvent Event → Except DispatchErr Unit) (env : EnvT)
      (fuel : Nat) (es : EngineState Event St) (e : Event) (rest : List Event),
      (∀ (es' : EngineState Event St) (err : EngineErr),
          es.eventQueue = e :: rest →
          processOne pe execD env ⟨es.currentState, rest, es.trace⟩ e
            = (es', some err) →
          applyEventsLoop pe execD env (fuel + 1) es = some (es', some err))
        ∧ (∀ err : String,
            pe es.currentState e env = .error err →
            processOne pe execD env es e
              = ({ es with trace := es.trace ++ [.processed e] },
                 some (.transitionErr err)))
        ∧ (∀ (t : StateTransition Event St) (evs : EmittedEvent Event)
            (derr : DispatchErr),
            pe es.currentState e env = .ok t →
            t.newEvents = some evs →
            (dispatchList execD (evs.externalEvents.getD [])).2 = some derr →
            processOne pe execD env es e
              = ({ es with
                    trace := es.trace ++ [.processed e]
                      ++ (dispatchList execD
                          (evs.externalEvents.getD [])).1.map .dispatched },
                 some (.daemonErr derr))) := by
  intro Event St EnvT pe execD env fuel es e rest
  obtain ⟨st, q, tr⟩ := es
  refine ⟨?_, ?_, ?_⟩
  · intro es' err hq hp
    simp only at hq
    subst hq
    simp [applyEventsLoop, hp]
  · intro err h
    simp [processOne, h]
  · intro t evs derr h1 h2 h3
    simp [processOne, h1, h2, h3]

/-- C5: the engine dequeues strictly first-in-first-out — with queue
`e :: rest` the next processed event is the head `e` — and a transition that
emits both an external event set and an internal event dispatches all the
external events, in declared order, before the internal event is enqueued at
the tail of the event queue. -/
theorem applyEvents_external_before_internal_fifo :
    ∀ (Event St EnvT : Type)
      (pe : St → Event → EnvT → Except String (StateTransition Event St))
      (execD : DaemonEvent Event → Except DispatchErr Unit) (env : EnvT)
      (fuel : Nat) (es : EngineState Event St) (e : Event) (rest : List Event)
      (t : StateTransition Event St) (evs : EmittedEvent Event)
      (ds : DaemonEventSet Event) (i : Event),
      (es.eventQueue = e :: rest →
        applyEventsLoop pe execD env (fuel + 1) es
          = (let r := processOne pe execD env ⟨es.currentState, rest, es.trace⟩ e
             match r.2 with
             | some err => some (r.1, some err)
             | none => applyEventsLoop pe execD env fuel r.1))
        ∧ (pe es.currentState e env = .ok t →
           t.newEvents = some evs →
           evs.externalEvents = some ds →
           evs.internalEvent = some i →
           (dispatchList execD ds).2 = none →
           processOne pe execD env es e
             = ({ currentState := t.nextState,
                  eventQueue := es.eventQueue ++ [i],
                  trace := es.trace ++ [.processed e] ++ ds.map .dispatched
                    ++ [.enqueuedInternal i] ++ [.notified t.nextState] },
                none)) := by
  intro Event St EnvT pe execD env fuel es e rest t evs ds i
  obtain ⟨st, q, tr⟩ := es
  constructor
  · intro hq
    simp only at hq
    subst hq
    rfl
  · intro h1 h2 h3 h4 h5
    simp [processOne, h1, h2, h3, h4, h5,
      dispatchList_no_error_dispatches_all execD ds h5]

/-- A transition function that fails on every event. -/
def peFail : Nat → Nat → Unit → Except String (StateTransition Nat Nat) :=
  fun _ _ _ => .error "bad event"

/-- A dispatcher that succeeds on every daemon event. -/
def execOk : DaemonEvent Nat → Except DispatchErr Unit := fun _ => .ok ()

/-- A transition function that, on state `s` and event `e`, moves to `s + 1`
and emits the external broadcast of transaction 9 together with the internal
event `e + 1`. -/
def peEmit : Nat → Nat → Unit → Except String (StateTransition Nat Nat) :=
  fun s e _ => .ok ⟨s + 1, some ⟨some (e + 1), some [.broadcastTxn 9 "x"]⟩⟩

/-- Witness for C4: on a transition function that rejects event 5, the
failing step leaves state and queue untouched and the engine loop returns
the error at once. -/
theorem applyEvents_abort_on_error_witness :
    processOne peFail execOk () (⟨0, [5], []⟩ : EngineState Nat Nat) 5
        = (⟨0, [5], [.processed 5]⟩, some (.transitionErr "bad event"))
      ∧ applyEventsLoop peFail execOk () 3 ⟨0, [5], []⟩
          = some (⟨0, [], [.processed 5]⟩, some (.transitionErr "bad event")) := by
  constructor
  · exact (applyEvents_abort_on_error Nat Nat Unit peFail execOk () 2
      ⟨0, [5], []⟩ 5 []).2.1 "bad event" rfl
  · exact (applyEvents_abort_on_error Nat Nat Unit peFail execOk () 2
      ⟨0, [5], []⟩ 5 []).1 ⟨0, [], [.processed 5]⟩
      (.transitionErr "bad event") rfl rfl

/-- Witness for C5: a transition on event 5 that emits one broadcast and the
internal event 6 dispatches the broadcast before enqueueing 6, and the loop
processes the head of the queue next. -/
theorem applyEvents_external_before_internal_fifo_witness :
    processOne peEmit execOk () (⟨0, [], []⟩ : EngineState Nat Nat) 5
        = (⟨1, [6], [.processed 5, .dispatched (.broadcastTxn 9 "x"),
            .enqueuedInternal 6, .notified 1]⟩, none)
      ∧ applyEventsLoop peEmit execOk () 3 ⟨0, [5], []⟩
          = (let r := processOne peEmit execOk () ⟨0, [], []⟩ 5
             match r.2 with
             | some err => some (r.1, some err)
             | none => applyEventsLoop peEmit execOk () 2 r.1) := by
  constructor
  · have h := (applyEvents_external_before_internal_fifo Nat Nat Unit peEmit
      execOk () 0 ⟨0, [], []⟩ 5 []
      ⟨1, some ⟨some 6, some [.broadcastTxn 9 "x"]⟩⟩
      ⟨some 6, some [.broadcastTxn 9 "x"]⟩
      [.broadcastTxn 9 "x"] 6).2 rfl rfl rfl rfl rfl
    simpa using h
  · exact (applyEvents_external_before_internal_fifo Nat Nat Unit peEmit
      execOk () 2 ⟨0, [5], []⟩ 5 [] ⟨1, none⟩ ⟨none, none⟩ [] 0).1 rfl
